import Mathlib

/-
Verification of the portfolio-matching store and orchestration flow of the
Cold-Mail-Generator repository (app/main.py), as a shallow embedding.

Modelling conventions:
- `str(uuid.uuid4())` is modelled as a fresh-counter identifier supply: the
  Portfolio state carries `nextUuid : Nat` and each inserted entry consumes
  one value, so distinct insertions receive distinct identifiers.
- The chromadb library is modelled behind a `CollectionOps` interface; the
  concrete model `chromaOps` stores entries in a list and answers a query by
  sorting stored entries by an abstract distance function and taking the
  `n_results` closest, mirroring nearest-neighbor lookup.  The raw query
  result is a dictionary that may or may not carry the key `metadatas`,
  modelled by an `Option` field.
- Exceptions are modelled with `Except String`; an effectful call site that
  may succeed or raise becomes a function supplied as an environment
  argument.  The retry loop consults `env attempt` for the outcome of the
  body of iteration `attempt`.
- `chroma_client.persist()` (line 112-113) flushes the collection to disk
  and does not change the entry contents we track, so it is not part of the
  modelled state.
-/

namespace ColdMail

/-- A row of the portfolio CSV: columns Techstack and Links (spec section 6). -/
structure Row where
  techstack : String
  links : String
deriving Repr, DecidableEq

/-- The metadata attached to a stored entry: main.py line 108 stores
the dictionary with single key links. -/
structure Metadata where
  links : String
deriving Repr, DecidableEq

/-- A stored portfolio entry: identifier, document text, metadata
(main.py lines 106-110).  The identifier is the uuid4 model (a Nat from the
fresh counter). -/
structure Entry where
  id : Nat
  document : String
  metadata : Metadata
deriving Repr, DecidableEq

/-- The dictionary returned by collection.query: it may or may not contain
the key metadatas, whose value is one list of metadata per query text. -/
structure QueryResult where
  metadatas : Option (List (List Metadata))
deriving Repr, DecidableEq

/-- The interface of a chromadb collection as used by main.py:
count(), add(documents, metadatas, ids) for a single row, and
query(query_texts, n_results). -/
structure CollectionOps (σ : Type) where
  count : σ → Nat
  add : σ → String → Metadata → Nat → σ
  query : σ → List String → Nat → QueryResult

/-- The state of a Portfolio object (main.py lines 55-62): the csv path, the
loaded rows, the optional collection (None when initialization did not
complete), and the fresh-identifier counter modelling uuid4. -/
structure Portfolio (σ : Type) where
  file_path : String
  data : List Row
  collection : Option σ
  nextUuid : Nat

/-- Portfolio.load_portfolio (main.py lines 99-113): if the collection is
None, print and return without mutating anything; if the collection count is
zero, add one entry per CSV row, each with document = Techstack, metadata =
links dictionary, and a fresh identifier; otherwise do nothing. -/
def loadPortfolio {σ : Type} (ops : CollectionOps σ) (p : Portfolio σ) : Portfolio σ :=
  match p.collection with
  | none => p
  | some col =>
    if ops.count col = 0 then
      let r := p.data.foldl
        (fun (acc : σ × Nat) row =>
          (ops.add acc.1 row.techstack ⟨row.links⟩ acc.2, acc.2 + 1))
        (col, p.nextUuid)
      { p with collection := some r.1, nextUuid := r.2 }
    else p

/-- Portfolio.query_links (main.py lines 115-121): if the collection is None,
return the empty list; otherwise query with n_results=2 and return
result.get(metadatas, default empty list). -/
def queryLinks {σ : Type} (ops : CollectionOps σ) (p : Portfolio σ)
    (skills : List String) : List (List Metadata) :=
  match p.collection with
  | none => []
  | some col => (ops.query col skills 2).metadatas.getD []

/-- The number of entries currently held by the collection of a portfolio
(zero when the collection is None). -/
def entryCount {σ : Type} (ops : CollectionOps σ) (p : Portfolio σ) : Nat :=
  match p.collection with
  | none => 0
  | some col => ops.count col

/-- The concrete model of a chromadb collection: the stored entries together
with an abstract embedding distance from a query text to a document. -/
structure ChromaCollection where
  entries : List Entry
  dist : String → String → Nat

/-- Nearest-match lookup for one query text: the stored entries sorted by
distance to the text, truncated to n results, projected to their metadata. -/
def chromaQueryOne (c : ChromaCollection) (text : String) (n : Nat) : List Metadata :=
  ((c.entries.mergeSort
      (fun a b => decide (c.dist text a.document ≤ c.dist text b.document))).take n).map
    Entry.metadata

/-- The chromadb collection operations: count is the number of stored
entries, add appends an entry, query answers each query text with the n
nearest matches and always populates the metadatas key. -/
def chromaOps : CollectionOps ChromaCollection where
  count := fun c => c.entries.length
  add := fun c doc m i => { c with entries := c.entries ++ [⟨i, doc, m⟩] }
  query := fun c skills n => ⟨some (skills.map (fun s => chromaQueryOne c s n))⟩

/-- Does the pattern match the beginning of the haystack (character lists)? -/
def leadMatch : List Char → List Char → Bool
  | [], _ => true
  | _ :: _, [] => false
  | c :: cs, d :: ds => c == d && leadMatch cs ds

/-- Does the pattern occur contiguously anywhere in the haystack? -/
def subMatch (pat : List Char) : List Char → Bool
  | [] => leadMatch pat []
  | c :: rest => leadMatch pat (c :: rest) || subMatch pat rest

/-- The error classifier of _initialize_chroma (main.py lines 83-84): the
lowercased message contains onnx, protobuf, or model. -/
def isModelError (msg : String) : Bool :=
  let m := msg.data.map Char.toLower
  subMatch "onnx".data m || subMatch "protobuf".data m || subMatch "model".data m

/-- The chromadb client handle (its identity is irrelevant to the claims). -/
structure Client where
  id : Nat
deriving Repr, DecidableEq

/-- The outcomes available to one initialization attempt for creating a
client: the in-memory chromadb.Client() call and the
chromadb.PersistentClient(path) call, each of which may raise. -/
structure ClientEnv where
  inMemory : Except String Client
  persistent : String → Except String Client

/-- Client creation inside one attempt (main.py lines 70-75): try the
in-memory client first; only if that raises, fall back to the persistent
client at path ./chroma_db.  The Bool records whether the fallback ran. -/
def createClient (env : ClientEnv) : Except String Client × Bool :=
  match env.inMemory with
  | .ok c => (.ok c, false)
  | .error _ => (env.persistent "./chroma_db", true)

/-- max_retries in _initialize_chroma (main.py line 66). -/
def maxRetries : Nat := 3

/-- The retry loop of _initialize_chroma (main.py lines 68-97), recursing on
the remaining fuel mr - attempt.  env gives the outcome of the body of each
attempt (client creation plus get_or_create_collection).  Returns the final
outcome together with the number of cache clears performed.  On a success,
return; on a failure classified as a model error with attempts left, clear
the cache, sleep, and retry; otherwise re-raise the failure. -/
def initGo (env : Nat → Except String ChromaCollection) (mr : Nat) :
    Nat → Except String ChromaCollection × Nat
  | 0 => (.error "", 0)
  | fuel + 1 =>
    let attempt := mr - (fuel + 1)
    match env attempt with
    | .ok c => (.ok c, 0)
    | .error e =>
      if isModelError e then
        if attempt < mr - 1 then
          let r := initGo env mr fuel
          (r.1, r.2 + 1)
        else (.error e, 0)
      else (.error e, 0)

/-- Portfolio._initialize_chroma (main.py lines 64-97): the retry loop run
with max_retries = 3 starting at attempt 0. -/
def initializeChroma (env : Nat → Except String ChromaCollection) :
    Except String ChromaCollection × Nat :=
  initGo env maxRetries maxRetries

/-- Modelled from the spec (section 4.1 initialization policy), for
comparison with the code: attempt 1 succeeding returns its collection with
no cache clear; a first failure not classified as a model/codec-loading
error propagates at once with no clear; a classified failure clears the
cache and moves to the next attempt, up to 3 attempts in all, and the
failure of the last attempt propagates. -/
def initPolicySpec (env : Nat → Except String ChromaCollection) :
    Except String ChromaCollection × Nat :=
  match env 0 with
  | .ok c => (.ok c, 0)
  | .error e0 =>
    if isModelError e0 then
      match env 1 with
      | .ok c => (.ok c, 1)
      | .error e1 =>
        if isModelError e1 then
          match env 2 with
          | .ok c => (.ok c, 2)
          | .error e2 => (.error e2, 2)
        else (.error e1, 1)
    else (.error e0, 0)

/-- Portfolio.__init__ (main.py lines 55-62): read the CSV (a read failure
propagates), then run _initialize_chroma (whose failure propagates); on
success the collection is set and the identifier supply starts fresh. -/
def mkPortfolio (file_path : String) (csv : Except String (List Row))
    (env : Nat → Except String ChromaCollection) :
    Except String (Portfolio ChromaCollection) :=
  match csv with
  | .error e => .error e
  | .ok rows =>
    match (initializeChroma env).1 with
    | .error e => .error e
    | .ok col => .ok ⟨file_path, rows, some col, 0⟩

/-- The entries inserted by the seeding loop from the given rows, with
identifiers drawn consecutively from n. -/
def seedList : List Row → Nat → List Entry
  | [], _ => []
  | r :: rest, n => ⟨n, r.techstack, ⟨r.links⟩⟩ :: seedList rest (n + 1)

/-- An extracted job posting as consumed by the loop of
create_streamlit_app: a dictionary that may or may not carry the key
skills (main.py line 142 reads it with a defaulted get). -/
structure Job where
  skills : Option (List String)

/-- A user-visible output of one submission: a code block (st.code), an
error banner (st.error) or an info banner (st.info). -/
inductive UIEvent where
  | codeBlock (s : String)
  | errorMsg (s : String)
  | infoMsg (s : String)
deriving Repr, DecidableEq

/-- The classifier of main.py line 152 for showing the extra tip:
the lowercased message contains onnx or protobuf. -/
def onnxHint (e : String) : Bool :=
  let m := e.data.map Char.toLower
  subMatch "onnx".data m || subMatch "protobuf".data m

/-- The output of the except branch (main.py lines 149-153): one st.error
banner, followed by an st.info tip when the message looks like a model
loading issue. -/
def errorOut (e : String) : List UIEvent :=
  UIEvent.errorMsg ("An Error Occurred: " ++ e) ::
    (if onnxHint e then
      [UIEvent.infoMsg "Tip: This appears to be a model loading issue."]
    else [])

/-- The external collaborators of one submission: the page fetch
(loader.load().pop().page_content, may raise), the text cleaner, and the
LLM chain calls extract_jobs and write_mail (both may raise). -/
structure PipelineEnv where
  fetch : Except String String
  cleanText : String → String
  extractJobs : String → Except String (List Job)
  writeMail : Job → List (List Metadata) → Except String String

/-- The links value handed to write_mail for one job (main.py lines
142-146): query the portfolio with the job skills (defaulted to the empty
list), and replace a falsy result with the empty list. -/
def usedLinks {σ : Type} (ops : CollectionOps σ) (p : Portfolio σ) (j : Job) :
    List (List Metadata) :=
  let links := queryLinks ops p (j.skills.getD [])
  if links.isEmpty then [] else links

/-- The per-job loop of create_streamlit_app (main.py lines 141-148) under
the surrounding try: each job whose write_mail succeeds emits one code
block; the first raising write_mail call aborts the loop and emits the
except-branch output. -/
def runJobs {σ : Type} (ops : CollectionOps σ) (env : PipelineEnv)
    (p : Portfolio σ) : List Job → List UIEvent
  | [] => []
  | j :: rest =>
    match env.writeMail j (usedLinks ops p j) with
    | .ok email => UIEvent.codeBlock email :: runJobs ops env p rest
    | .error e => errorOut e

/-- One submission of create_streamlit_app (main.py lines 135-153): fetch
the page, clean it, seed the portfolio, extract jobs, then draft one email
per job; any raise lands in the single top-level except branch.  The
function is total: it always returns the emitted events and the resulting
portfolio state instead of propagating an exception. -/
def runSubmission {σ : Type} (ops : CollectionOps σ) (env : PipelineEnv)
    (p : Portfolio σ) : List UIEvent × Portfolio σ :=
  match env.fetch with
  | .error e => (errorOut e, p)
  | .ok page =>
    let cleaned := env.cleanText page
    let p2 := loadPortfolio ops p
    match env.extractJobs cleaned with
    | .error e => (errorOut e, p2)
    | .ok jobs => (runJobs ops env p2 jobs, p2)

/-- The number of error banners in a list of events. -/
def countErrors (evs : List UIEvent) : Nat :=
  (evs.filter (fun ev => match ev with | UIEvent.errorMsg _ => true | _ => false)).length

/-- The number of code blocks in a list of events. -/
def countCodes (evs : List UIEvent) : Nat :=
  (evs.filter (fun ev => match ev with | UIEvent.codeBlock _ => true | _ => false)).length

/-- A collection backend whose raw query result carries no metadatas key,
exercising the defaulted dictionary access of query_links. -/
def bareOps : CollectionOps Unit where
  count := fun _ => 0
  add := fun c _ _ _ => c
  query := fun _ _ _ => ⟨none⟩

/-- The two portfolio rows of the scenario in spec section 8. -/
def specRows : List Row :=
  [⟨"Python, Django", "github.com/x/django-app"⟩,
   ⟨"React, Node", "github.com/x/react-app"⟩]

/-- A freshly constructed portfolio over an empty collection holding the
two scenario rows. -/
def pSpec : Portfolio ChromaCollection :=
  ⟨"app/resource/my_portfolio.csv", specRows, some ⟨[], fun _ _ => 0⟩, 0⟩

/-- A portfolio whose collection already holds one entry, so that seeding
must be a no-op. -/
def pSeeded : Portfolio ChromaCollection :=
  ⟨"app/resource/my_portfolio.csv", specRows,
   some ⟨[⟨7, "Python, Django", ⟨"github.com/x/django-app"⟩⟩], fun _ _ => 0⟩, 1⟩

/-- A pipeline environment whose page fetch raises a network error. -/
def envFetchFail : PipelineEnv :=
  ⟨.error "connection refused", id, fun _ => .ok [], fun _ _ => .ok "draft"⟩

/-- A client environment whose in-memory client creation succeeds. -/
def clientEnvOk : ClientEnv :=
  ⟨.ok ⟨0⟩, fun _ => .ok ⟨1⟩⟩

/-- A client environment whose in-memory client creation raises. -/
def clientEnvFail : ClientEnv :=
  ⟨.error "sqlite too old", fun _ => .ok ⟨1⟩⟩

/- ===================== Theorems ===================== -/

/-- Claim C1: with a None collection, query_links returns the empty list for
every skills argument, and load_portfolio returns without raising and
without mutating any state. -/
theorem uninitialized_store_degrades {σ : Type} (ops : CollectionOps σ)
    (p : Portfolio σ) (skills : List String) (h : p.collection = none) :
    queryLinks ops p skills = [] ∧ loadPortfolio ops p = p := by
  constructor
  · simp [queryLinks, h]
  · simp [loadPortfolio, h]

/-- Witness for C1 at a concrete uninitialized portfolio. -/
theorem uninitialized_store_degrades_witness :
    queryLinks chromaOps ⟨"app/resource/my_portfolio.csv", [], none, 0⟩ ["Python"] = []
    ∧ loadPortfolio chromaOps ⟨"app/resource/my_portfolio.csv", [], none, 0⟩
        = ⟨"app/resource/my_portfolio.csv", [], none, 0⟩ :=
  uninitialized_store_degrades chromaOps _ ["Python"] rfl

/-- Claim C7: within each attempt, the in-memory client is tried first; the
persistent client with path ./chroma_db runs exactly when the in-memory
creation fails. -/
theorem client_inmemory_then_persistent (env : ClientEnv) :
    (∀ c, env.inMemory = .ok c → createClient env = (.ok c, false))
    ∧ (∀ e, env.inMemory = .error e →
        createClient env = (env.persistent "./chroma_db", true)) := by
  constructor
  · intro c h
    simp [createClient, h]
  · intro e h
    simp [createClient, h]

/-- Witness for C7 at a succeeding and at a failing in-memory creation. -/
theorem client_inmemory_then_persistent_witness :
    createClient clientEnvOk = (.ok ⟨0⟩, false)
    ∧ createClient clientEnvFail = (clientEnvFail.persistent "./chroma_db", true) :=
  ⟨(client_inmemory_then_persistent clientEnvOk).1 ⟨0⟩ rfl,
   (client_inmemory_then_persistent clientEnvFail).2 "sqlite too old" rfl⟩

/-- Claim C9: constructing the store over a failing CSV read propagates the
read failure, and the result does not depend on the vector-store
initialization environment, which is therefore never consulted. -/
theorem csv_failure_precedes_init (fp e : String)
    (env env2 : Nat → Except String ChromaCollection) :
    mkPortfolio fp (.error e) env = .error e
    ∧ mkPortfolio fp (.error e) env = mkPortfolio fp (.error e) env2 := by
  constructor <;> simp [mkPortfolio]

/-- Claim C10: even on an available collection, a raw query result with no
metadatas key makes query_links return the empty list rather than raise. -/
theorem query_missing_metadatas_empty {σ : Type} (ops : CollectionOps σ)
    (p : Portfolio σ) (col : σ) (skills : List String)
    (hcol : p.collection = some col) (hq : ops.query col skills 2 = ⟨none⟩) :
    queryLinks ops p skills = [] := by
  simp [queryLinks, hcol, hq]

/-- Witness for C10 at a backend that omits the metadatas key. -/
theorem query_missing_metadatas_empty_witness :
    queryLinks bareOps ⟨"app/resource/my_portfolio.csv", [], some (), 0⟩ ["Python"] = [] :=
  query_missing_metadatas_empty bareOps _ () ["Python"] rfl rfl

/-- The seeding fold of load_portfolio appends one entry per row with
consecutive fresh identifiers. -/
theorem seed_foldl (rows : List Row) (c : ChromaCollection) (n : Nat) :
    List.foldl
      (fun (acc : ChromaCollection × Nat) row =>
        (chromaOps.add acc.1 row.techstack ⟨row.links⟩ acc.2, acc.2 + 1))
      (c, n) rows
    = ({ c with entries := c.entries ++ seedList rows n }, n + rows.length) := by
  induction rows generalizing c n with
  | nil => simp [seedList]
  | cons r rest ih =>
    simp only [List.foldl_cons]
    rw [ih]
    simp [chromaOps, seedList, List.append_assoc]
    omega

/-- seedList produces one entry per row. -/
theorem seedList_length (rows : List Row) (n : Nat) :
    (seedList rows n).length = rows.length := by
  induction rows generalizing n with
  | nil => simp [seedList]
  | cons r rest ih => simp [seedList, ih]

/-- The documents of the seeded entries are the Techstack column in order. -/
theorem seedList_map_document (rows : List Row) (n : Nat) :
    (seedList rows n).map Entry.document = rows.map Row.techstack := by
  induction rows generalizing n with
  | nil => simp [seedList]
  | cons r rest ih => simp [seedList, ih]

/-- The metadata of the seeded entries are the Links column in order. -/
theorem seedList_map_metadata (rows : List Row) (n : Nat) :
    (seedList rows n).map Entry.metadata = rows.map (fun r => ⟨r.links⟩) := by
  induction rows generalizing n with
  | nil => simp [seedList]
  | cons r rest ih => simp [seedList, ih]

/-- Every identifier issued by the seeding loop is at least the starting
counter value. -/
theorem seedList_id_ge (rows : List Row) (n : Nat) :
    ∀ e ∈ seedList rows n, n ≤ e.id := by
  induction rows generalizing n with
  | nil => simp [seedList]
  | cons r rest ih =>
    intro e he
    simp only [seedList, List.mem_cons] at he
    rcases he with h | h
    · simp [h]
    · have := ih (n + 1) e h
      omega

/-- The identifiers issued by the seeding loop are pairwise distinct. -/
theorem seedList_nodup (rows : List Row) (n : Nat) :
    ((seedList rows n).map Entry.id).Nodup := by
  induction rows generalizing n with
  | nil => simp [seedList]
  | cons r rest ih =>
    simp only [seedList, List.map_cons, List.nodup_cons]
    refine ⟨?_, ih (n + 1)⟩
    intro hmem
    rcases List.mem_map.mp hmem with ⟨e, he, hid⟩
    have := seedList_id_ge rest (n + 1) e he
    omega

/-- load_portfolio is a no-op on a portfolio whose collection count is
non-zero. -/
theorem load_noop_of_nonempty (p : Portfolio ChromaCollection)
    (col : ChromaCollection) (hcol : p.collection = some col)
    (h : chromaOps.count col ≠ 0) :
    loadPortfolio chromaOps p = p := by
  simp [loadPortfolio, hcol, h]

/-- Claim C5: on a collection holding zero entries, load_portfolio inserts
exactly one entry per CSV row, with document the Techstack value, metadata
the Links value, and pairwise distinct fresh identifiers. -/
theorem seed_empty_inserts_all_rows (p : Portfolio ChromaCollection)
    (col : ChromaCollection) (hcol : p.collection = some col)
    (h0 : chromaOps.count col = 0) :
    ∃ col2, (loadPortfolio chromaOps p).collection = some col2
      ∧ chromaOps.count col2 = p.data.length
      ∧ col2.entries.map Entry.document = p.data.map Row.techstack
      ∧ col2.entries.map Entry.metadata = p.data.map (fun r => ⟨r.links⟩)
      ∧ (col2.entries.map Entry.id).Nodup := by
  have hentries : col.entries = [] := by
    have : col.entries.length = 0 := by simpa [chromaOps] using h0
    exact List.length_eq_zero.mp this
  refine ⟨{ col with entries := seedList p.data p.nextUuid }, ?_, ?_, ?_, ?_, ?_⟩
  · simp [loadPortfolio, hcol, h0, seed_foldl, hentries]
  · simp [chromaOps, seedList_length]
  · exact seedList_map_document _ _
  · exact seedList_map_metadata _ _
  · exact seedList_nodup _ _

/-- Witness for C5: seeding an empty store from the 2-row scenario CSV
yields exactly 2 entries with the expected documents and links. -/
theorem seed_empty_inserts_all_rows_witness :
    ∃ col2, (loadPortfolio chromaOps pSpec).collection = some col2
      ∧ chromaOps.count col2 = 2
      ∧ col2.entries.map Entry.document = ["Python, Django", "React, Node"]
      ∧ col2.entries.map Entry.metadata
          = [⟨"github.com/x/django-app"⟩, ⟨"github.com/x/react-app"⟩]
      ∧ (col2.entries.map Entry.id).Nodup :=
  seed_empty_inserts_all_rows pSpec ⟨[], fun _ _ => 0⟩ rfl rfl

/-- Claim C2: seeding is idempotent: running load_portfolio twice leaves the
very same state (hence the same entry count) as running it once, and a
collection whose count is non-zero is never re-seeded: the call is a no-op. -/
theorem seed_idempotent (p : Portfolio ChromaCollection) :
    loadPortfolio chromaOps (loadPortfolio chromaOps p) = loadPortfolio chromaOps p
    ∧ ∀ col, p.collection = some col → chromaOps.count col ≠ 0 →
        loadPortfolio chromaOps p = p := by
  constructor
  · cases hc : p.collection with
    | none =>
      have h : loadPortfolio chromaOps p = p := by simp [loadPortfolio, hc]
      rw [h, h]
    | some col =>
      by_cases h0 : chromaOps.count col = 0
      · have hentries : col.entries = [] := by
          have : col.entries.length = 0 := by simpa [chromaOps] using h0
          exact List.length_eq_zero.mp this
        by_cases hd : p.data = []
        · have h : loadPortfolio chromaOps p = p := by
            cases p with
            | mk fp data coll nu =>
              cases col with
              | mk es dist =>
                simp_all [loadPortfolio, seed_foldl, seedList]
          rw [h, h]
        · have h1 : loadPortfolio chromaOps p
              = { p with collection := some { col with entries := seedList p.data p.nextUuid },
                         nextUuid := p.nextUuid + p.data.length } := by
            simp [loadPortfolio, hc, h0, seed_foldl, hentries]
          apply load_noop_of_nonempty _ { col with entries := seedList p.data p.nextUuid }
          · rw [h1]
          · simp [chromaOps, seedList_length]
            intro h
            exact hd h
      · have h : loadPortfolio chromaOps p = p := load_noop_of_nonempty p col hc h0
        rw [h, h]
  · intro col hcol hne
    exact load_noop_of_nonempty p col hcol hne

/-- Witness for C2 at a concrete already-seeded portfolio. -/
theorem seed_idempotent_witness :
    loadPortfolio chromaOps (loadPortfolio chromaOps pSeeded) = loadPortfolio chromaOps pSeeded
    ∧ loadPortfolio chromaOps pSeeded = pSeeded :=
  ⟨(seed_idempotent pSeeded).1,
   (seed_idempotent pSeeded).2 ⟨[⟨7, "Python, Django", ⟨"github.com/x/django-app"⟩⟩], fun _ _ => 0⟩
     rfl (by simp [chromaOps])⟩

/-- Claim C4: on an initialized store, query_links answers a non-empty
skills list with one inner list per skill, in order, each holding at most 2
metadata entries. -/
theorem query_two_per_skill (p : Portfolio ChromaCollection)
    (col : ChromaCollection) (hcol : p.collection = some col)
    (skills : List String) (_hne : skills ≠ []) :
    (queryLinks chromaOps p skills).length = skills.length
    ∧ ∀ l ∈ queryLinks chromaOps p skills, l.length ≤ 2 := by
  constructor
  · simp [queryLinks, hcol, chromaOps]
  · intro l hl
    simp only [queryLinks, hcol, chromaOps, Option.getD_some, List.mem_map] at hl
    obtain ⟨s, _, rfl⟩ := hl
    simp only [chromaQueryOne, List.length_map, List.length_take, List.length_mergeSort]
    omega

/-- Witness for C4 at a concrete initialized portfolio and skill list. -/
theorem query_two_per_skill_witness :
    (queryLinks chromaOps pSpec ["Python"]).length = 1
    ∧ ∀ l ∈ queryLinks chromaOps pSpec ["Python"], l.length ≤ 2 :=
  query_two_per_skill pSpec ⟨[], fun _ _ => 0⟩ rfl ["Python"] (by simp)

/-- Claim C3: the initialization loop implements exactly the spec policy:
a failure classified as a model/codec-loading error (message contains onnx,
protobuf, or model) clears the cache and retries, up to 3 attempts in all;
the failure of the last attempt propagates; any unclassified failure
propagates immediately with no retry and no cache clear.  The classifier
itself is checked on sample messages. -/
theorem init_retry_matches_policy (env : Nat → Except String ChromaCollection) :
    initializeChroma env = initPolicySpec env
    ∧ isModelError "No ONNX runtime found" = true
    ∧ isModelError "Protobuf parsing failed" = true
    ∧ isModelError "could not fetch the embedding model" = true
    ∧ isModelError "database is locked" = false := by
  refine ⟨?_, by decide, by decide, by decide, by decide⟩
  cases h0 : env 0 with
  | ok c => simp [initializeChroma, maxRetries, initGo, initPolicySpec, h0]
  | error e0 =>
    by_cases m0 : isModelError e0
    · cases h1 : env 1 with
      | ok c =>
        simp [initializeChroma, maxRetries, initGo, initPolicySpec, h0, h1, m0]
      | error e1 =>
        by_cases m1 : isModelError e1
        · cases h2 : env 2 with
          | ok c =>
            simp [initializeChroma, maxRetries, initGo, initPolicySpec, h0, h1, h2, m0, m1]
          | error e2 =>
            simp [initializeChroma, maxRetries, initGo, initPolicySpec, h0, h1, h2, m0, m1]
        · simp [initializeChroma, maxRetries, initGo, initPolicySpec, h0, h1, m0, m1]
    · simp [initializeChroma, maxRetries, initGo, initPolicySpec, h0, m0]

/-- errorOut always holds exactly one error banner. -/
theorem countErrors_errorOut (e : String) : countErrors (errorOut e) = 1 := by
  by_cases h : onnxHint e <;> simp [countErrors, errorOut, h]

/-- errorOut never holds a code block. -/
theorem countCodes_errorOut (e : String) : countCodes (errorOut e) = 0 := by
  by_cases h : onnxHint e <;> simp [countCodes, errorOut, h]

/-- The per-job loop emits at most one error banner. -/
theorem countErrors_runJobs_le {σ : Type} (ops : CollectionOps σ)
    (env : PipelineEnv) (p : Portfolio σ) (jobs : List Job) :
    countErrors (runJobs ops env p jobs) ≤ 1 := by
  induction jobs with
  | nil => simp [runJobs, countErrors]
  | cons j rest ih =>
    simp only [runJobs]
    cases env.writeMail j (usedLinks ops p j) with
    | ok email => simpa [countErrors] using ih
    | error e => simpa using Nat.le_of_eq (countErrors_errorOut e)

/-- Claim C6: any exception at any stage of a submission is caught at the
top: the handler always returns (the process stays alive) with at most one
error banner; a page-fetch failure yields exactly one error banner and no
code block; an extraction failure yields exactly one error banner; a
write_mail failure aborts the per-job loop with exactly one error banner. -/
theorem submission_single_error {σ : Type} (ops : CollectionOps σ)
    (env : PipelineEnv) (p : Portfolio σ) :
    countErrors (runSubmission ops env p).1 ≤ 1
    ∧ (∀ e, env.fetch = .error e →
        countErrors (runSubmission ops env p).1 = 1
        ∧ countCodes (runSubmission ops env p).1 = 0)
    ∧ (∀ page e, env.fetch = .ok page →
        env.extractJobs (env.cleanText page) = .error e →
        countErrors (runSubmission ops env p).1 = 1)
    ∧ (∀ p2 j rest e, env.writeMail j (usedLinks ops p2 j) = .error e →
        countErrors (runJobs ops env p2 (j :: rest)) = 1) := by
  refine ⟨?_, ?_, ?_, ?_⟩
  · cases hf : env.fetch with
    | error e => simpa [runSubmission, hf] using Nat.le_of_eq (countErrors_errorOut e)
    | ok page =>
      cases hj : env.extractJobs (env.cleanText page) with
      | error e =>
        simpa [runSubmission, hf, hj] using Nat.le_of_eq (countErrors_errorOut e)
      | ok jobs =>
        simpa [runSubmission, hf, hj] using
          countErrors_runJobs_le ops env (loadPortfolio ops p) jobs
  · intro e hf
    simp [runSubmission, hf, countErrors_errorOut, countCodes_errorOut]
  · intro page e hf hj
    simp [runSubmission, hf, hj, countErrors_errorOut]
  · intro p2 j rest e hw
    simp [runJobs, hw, countErrors_errorOut]

/-- Witness for C6 at a submission whose page fetch raises a network error. -/
theorem submission_single_error_witness :
    countErrors (runSubmission bareOps envFetchFail
      ⟨"app/resource/my_portfolio.csv", [], some (), 0⟩).1 ≤ 1
    ∧ (countErrors (runSubmission bareOps envFetchFail
          ⟨"app/resource/my_portfolio.csv", [], some (), 0⟩).1 = 1
        ∧ countCodes (runSubmission bareOps envFetchFail
            ⟨"app/resource/my_portfolio.csv", [], some (), 0⟩).1 = 0) :=
  ⟨(submission_single_error bareOps envFetchFail _).1,
   (submission_single_error bareOps envFetchFail _).2.1 "connection refused" rfl⟩

end ColdMail
